import Mathlib

/-!
Verification of the Wiki-Summarizer repository (src/summarizer.py,
src/pipeline.py, src/scraper.py) against its natural-language
specification.

The development is a shallow embedding of the Python code:

* Python strings are Lean `String`; `str.strip` is `pyStrip`,
  `sep.join(xs)` is `pyJoin sep xs`, `len` is `pyLen`.
* The remote HTTP service is abstracted by an oracle
  `Nat → ApiResponse` giving the response to the n-th attempt of one
  `call_groq_api` invocation.  A `.http 200 (some c)` response models a
  200 reply whose JSON body parses and contains
  choices[0].message.content = c; `.http 200 none` models a 200 reply
  whose body is valid JSON but lacks that path, so the subscription in
  summarizer.py line 85 raises an uncaught KeyError (the except clauses
  of lines 101 and 107 only catch requests exceptions; a JSON decode
  failure of requests is a RequestException and is modelled as
  `.reqError`).
* Exceptions are modelled explicitly: `CallResult.raised` and a `none`
  batch result stand for an exception propagating out of the function.
* Time is not modelled; the delays passed to time.sleep are recorded in
  the order they are slept.
-/

/-- Python `Char.isWhitespace`-style predicate used by `str.strip`
(restricted to the ASCII whitespace the inputs contain). -/
def isWS (c : Char) : Bool := c.isWhitespace

/-- Removal of trailing, then leading, whitespace of a character list:
the content of Python `str.strip()`. -/
def stripChars (l : List Char) : List Char :=
  ((l.reverse.dropWhile isWS).reverse).dropWhile isWS

/-- Python `s.strip()`. -/
def pyStrip (s : String) : String := ⟨stripChars s.data⟩

/-- Python `len(s)` (number of characters). -/
def pyLen (s : String) : Nat := s.data.length

/-- Python `sep.join(xs)`. -/
def pyJoin (sep : String) : List String → String
  | [] => ""
  | [s] => s
  | s :: rest => s ++ sep ++ pyJoin sep rest

/-- Substring containment on character lists, testing the needle at the
current position: helper for `containsSub`. -/
def subAt : List Char → List Char → Bool
  | [], _ => true
  | _ :: _, [] => false
  | a :: s, b :: l => a == b && subAt s l

/-- Python `needle in hay` for strings (substring containment). -/
def containsSub (hay needle : List Char) : Bool :=
  match hay with
  | [] => needle.isEmpty
  | _ :: rest => subAt needle hay || containsSub rest needle

/-- Configuration constants set in GroqSummarizer.__init__
(summarizer.py lines 24-26). -/
structure Config where
  min_section_length : Nat
  max_retries : Nat
  base_delay : Nat
deriving Repr, DecidableEq

/-- The values hard-coded in GroqSummarizer.__init__: threshold 50,
3 retries, base delay 1. -/
def default_config : Config :=
  { min_section_length := 50, max_retries := 3, base_delay := 1 }

/-- One response of the remote service to one HTTP POST.
`.http status content` is an HTTP reply; for status 200, `content` is
`some c` when the JSON body parses and yields
choices[0].message.content = c, and `none` when the body is valid JSON
without that path (the access then raises an uncaught KeyError).
`.timeout` is requests.exceptions.Timeout; `.reqError` is any other
requests.exceptions.RequestException (this includes a JSON decode
failure of response.json()). -/
inductive ApiResponse
  | http (status : Nat) (content : Option String)
  | timeout
  | reqError
deriving Repr, DecidableEq

/-- Outcome of one call_groq_api invocation: a summary string, a None
return after exhausting retries, or an uncaught exception. -/
inductive CallResult
  | ok (summary : String)
  | failure
  | raised
deriving Repr, DecidableEq

/-- Observable trace of one call_groq_api invocation: its outcome, the
number of HTTP requests issued, and the delays slept (in order). -/
structure CallTrace where
  result : CallResult
  calls : Nat
  delays : List Nat
deriving Repr, DecidableEq

/-- The retry loop of GroqSummarizer.call_groq_api (summarizer.py lines
74-113), embedded structurally: `fuel` is the number of loop iterations
still available (`max_retries - attempt`), so `fuel = 0` after the
current iteration means `attempt = max_retries - 1`, the condition
guarding the sleeps of lines 95-98, 103-104 and 109-110.  The sleep of
the 429 branch (line 90) is unconditional.  A 200 reply returns
content.strip() (line 85) or raises (modelled by `.raised`) when the
body lacks the choices path. -/
def call_groq_api_loop (cfg : Config) (oracle : Nat → ApiResponse) :
    Nat → Nat → CallTrace
  | _, 0 => ⟨CallResult.failure, 0, []⟩
  | attempt, fuel + 1 =>
    match oracle attempt with
    | .http status content =>
      if status = 200 then
        match content with
        | some c => ⟨CallResult.ok (pyStrip c), 1, []⟩
        | none => ⟨CallResult.raised, 1, []⟩
      else if status = 429 then
        let t := call_groq_api_loop cfg oracle (attempt + 1) fuel
        ⟨t.result, t.calls + 1, cfg.base_delay * 2 ^ attempt :: t.delays⟩
      else
        let t := call_groq_api_loop cfg oracle (attempt + 1) fuel
        ⟨t.result, t.calls + 1,
          if fuel = 0 then t.delays
          else cfg.base_delay * 2 ^ attempt :: t.delays⟩
    | .timeout =>
      let t := call_groq_api_loop cfg oracle (attempt + 1) fuel
      ⟨t.result, t.calls + 1,
        if fuel = 0 then t.delays
        else cfg.base_delay * 2 ^ attempt :: t.delays⟩
    | .reqError =>
      let t := call_groq_api_loop cfg oracle (attempt + 1) fuel
      ⟨t.result, t.calls + 1,
        if fuel = 0 then t.delays
        else cfg.base_delay * 2 ^ attempt :: t.delays⟩

/-- GroqSummarizer.call_groq_api: run the loop from attempt 0 with
max_retries iterations available. -/
def call_groq_api (cfg : Config) (oracle : Nat → ApiResponse) : CallTrace :=
  call_groq_api_loop cfg oracle 0 cfg.max_retries

/-- GroqSummarizer.prepare_section_text (summarizer.py line 45):
concatenate the paragraphs with blank-line separators and strip. -/
def prepare_section_text (paragraphs : List String) : String :=
  pyStrip (pyJoin "\n\n" paragraphs)

/-- GroqSummarizer.is_section_valid (summarizer.py line 49):
len(section_text.strip()) >= self.min_section_length. -/
def is_section_valid (cfg : Config) (section_text : String) : Bool :=
  decide (pyLen (pyStrip section_text) ≥ cfg.min_section_length)

/-- GroqSummarizer.create_prompt (summarizer.py lines 51-62): the fixed
two-message payload, as (role, content) pairs. -/
def create_prompt (section_text : String) : List (String × String) :=
  [("system",
    "You are a helpful summarizer. Provide concise, accurate summaries that capture the key information and main points."),
   ("user",
    "Summarize the following text in 2–4 concise, coherent sentences. Focus on the main points and key information:\n\n"
      ++ section_text)]

/-- Outcome of GroqSummarizer.summarize_section for one section.  The
Python function returns Optional[str]: `.ok` is a truthy summary
string; `.tooShort` is the None of the validity check (line 123);
`.apiFailure` is the None of line 137 (exhausted retries, or an empty
summary string, which `if summary:` treats as falsy); `.raised` is an
uncaught exception from call_groq_api. -/
inductive SummaryOutcome
  | ok (summary : String)
  | tooShort
  | apiFailure
  | raised
deriving Repr, DecidableEq

/-- GroqSummarizer.summarize_section (summarizer.py lines 115-137),
paired with the number of HTTP requests it issued. -/
def summarize_section (cfg : Config) (oracle : Nat → ApiResponse)
    (section_name : String) (paragraphs : List String) :
    SummaryOutcome × Nat :=
  let _ := section_name
  let section_text := prepare_section_text paragraphs
  if is_section_valid cfg section_text then
    let t := call_groq_api cfg oracle
    match t.result with
    | .ok s => if s.data.isEmpty then (.apiFailure, t.calls) else (.ok s, t.calls)
    | .failure => (.apiFailure, t.calls)
    | .raised => (.raised, t.calls)
  else
    (.tooShort, 0)

/-- Observable trace of GroqSummarizer.process_all_sections: the section
keys actually visited by the loop, in order, and the returned mapping
(`none` when an exception propagated out of the function, so no mapping
was returned to the caller). -/
structure BatchTrace where
  visited : List String
  result : Option (List (String × String))
deriving Repr, DecidableEq

/-- The loop of GroqSummarizer.process_all_sections (summarizer.py lines
177-194) over the ordered section mapping.  `oracle name` is the
response sequence the remote service gives to the calls made for
section `name`.  A success is recorded in insertion order; a None from
summarize_section only skips the section; an uncaught exception aborts
the loop and propagates (result `none`). -/
def process_all_sections (cfg : Config)
    (oracle : String → Nat → ApiResponse) :
    List (String × List String) → BatchTrace
  | [] => ⟨[], some []⟩
  | (name, paragraphs) :: rest =>
    match (summarize_section cfg (oracle name) name paragraphs).1 with
    | .raised => ⟨[name], none⟩
    | .ok s =>
      let t := process_all_sections cfg oracle rest
      ⟨name :: t.visited, t.result.map (fun m => (name, s) :: m)⟩
    | _ =>
      let t := process_all_sections cfg oracle rest
      ⟨name :: t.visited, t.result⟩

/-- Whether process_all_sections reaches save_markdown (summarizer.py
lines 198-204): only when it returns normally with a non-empty summaries
mapping does it format and write the output file. -/
def writes_output (cfg : Config) (oracle : String → Nat → ApiResponse)
    (data : List (String × List String)) : Bool :=
  match (process_all_sections cfg oracle data).result with
  | some summaries => !summaries.isEmpty
  | none => false

/-- Exit code of summarizer.main (summarizer.py lines 258-264): 0 when a
non-empty mapping was returned, 1 when the mapping is empty, 1 when an
exception was caught. -/
def main_exit (cfg : Config) (oracle : String → Nat → ApiResponse)
    (data : List (String × List String)) : Nat :=
  match (process_all_sections cfg oracle data).result with
  | some summaries => if summaries.isEmpty then 1 else 0
  | none => 1

/-- Return value of WikiPipeline.step_3_summarization (pipeline.py lines
86-116): True exactly when process_all_sections returned a non-empty
mapping; an exception is caught and yields False. -/
def step_3_success (cfg : Config) (oracle : String → Nat → ApiResponse)
    (data : List (String × List String)) : Bool :=
  match (process_all_sections cfg oracle data).result with
  | some summaries => !summaries.isEmpty
  | none => false

/-- The heading line appended for one section key by
GroqSummarizer.format_markdown_output (summarizer.py lines 143-150):
level 3 when the character > occurs in the key (`'>' in section_name`),
level 2 otherwise, with a trailing newline from the f-string. -/
def headingLine (name : String) : String :=
  if name.data.contains '>' then "### " ++ name ++ "\n"
  else "## " ++ name ++ "\n"

/-- The output_lines list built by the loop of
GroqSummarizer.format_markdown_output (summarizer.py lines 141-152). -/
def formatLines : List (String × String) → List String
  | [] => []
  | (name, summary) :: rest =>
    headingLine name :: (summary ++ "\n") :: formatLines rest

/-- GroqSummarizer.format_markdown_output (summarizer.py lines 139-154):
join the lines with newlines and strip. -/
def format_markdown_output (summaries : List (String × String)) : String :=
  pyStrip (pyJoin "\n" (formatLines summaries))

/-- The error message raised by load_environment (summarizer.py lines
235-238). -/
def missing_key_message : String :=
  "GROQ_API_KEY not found in environment variables. Please create a .env file with: GROQ_API_KEY=your_api_key_here"

/-- load_environment (summarizer.py lines 229-240): `env` is the value
of os.getenv for GROQ_API_KEY.  Absence, or an empty value (falsy under
`if not api_key:`), raises the configuration error. -/
def load_environment (env : Option String) : Except String String :=
  match env with
  | none => .error missing_key_message
  | some k => if k.data.isEmpty then .error missing_key_message else .ok k

/-- Externally visible events of a run, for the temporal claim about the
credential check: the article-page fetch of scraper.fetch_page, the
credential check of load_environment, the report of the fatal
configuration error, and one HTTP POST to the completion endpoint. -/
inductive Event
  | wikiFetch
  | credCheck
  | configError
  | groqCall
deriving Repr, DecidableEq

/-- Whether an event is a remote call over the network. -/
def isRemote : Event → Bool
  | .wikiFetch => true
  | .groqCall => true
  | _ => false

/-- Total number of HTTP POSTs issued by the process_all_sections loop:
per-section calls accumulate until a section raises, which aborts the
loop. -/
def total_api_calls (cfg : Config) (oracle : String → Nat → ApiResponse) :
    List (String × List String) → Nat
  | [] => 0
  | (name, paragraphs) :: rest =>
    match summarize_section cfg (oracle name) name paragraphs with
    | (.raised, c) => c
    | (_, c) => c + total_api_calls cfg oracle rest

/-- Event trace of summarizer.main (summarizer.py lines 243-264):
load_environment runs first; if the key is missing the error is
reported and nothing else happens; otherwise the batch issues its
completion calls (reading the input file is not a network event). -/
def summarizer_main_trace (cfg : Config) (env : Option String)
    (oracle : String → Nat → ApiResponse)
    (data : List (String × List String)) : List Event :=
  match load_environment env with
  | .error _ => [.credCheck, .configError]
  | .ok _ => .credCheck :: List.replicate (total_api_calls cfg oracle data) .groqCall

/-- Event trace of run_pipeline (pipeline.py lines 155-205): step 1
fetches the article page over the network (scraper.fetch_page); only
then does step 2 run the credential check; step 3 issues the completion
calls.  `scraped` is `none` when scraping fails (the pipeline then
reports and returns without a credential check). -/
def run_pipeline_trace (cfg : Config) (env : Option String)
    (scraped : Option (List (String × List String)))
    (oracle : String → Nat → ApiResponse) : List Event :=
  match scraped with
  | none => [.wikiFetch]
  | some data =>
    match load_environment env with
    | .error _ => [.wikiFetch, .credCheck, .configError]
    | .ok _ =>
      .wikiFetch :: .credCheck ::
        List.replicate (total_api_calls cfg oracle data) .groqCall

lemma length_dropWhile_le (p : Char → Bool) (l : List Char) :
    (l.dropWhile p).length ≤ l.length := by
  induction l with
  | nil => simp
  | cons a l ih =>
    by_cases h : p a
    · simp only [List.dropWhile_cons, h, if_true]
      exact Nat.le_succ_of_le ih
    · simp [List.dropWhile_cons, h]

lemma stripChars_length_le (l : List Char) :
    (stripChars l).length ≤ l.length := by
  unfold stripChars
  calc (((l.reverse.dropWhile isWS).reverse).dropWhile isWS).length
      ≤ ((l.reverse.dropWhile isWS).reverse).length := length_dropWhile_le ..
    _ = (l.reverse.dropWhile isWS).length := List.length_reverse ..
    _ ≤ l.reverse.length := length_dropWhile_le ..
    _ = l.length := List.length_reverse ..

lemma pyLen_pyStrip_le (s : String) : pyLen (pyStrip s) ≤ pyLen s :=
  stripChars_length_le s.data

/-- C2: for every list of paragraph strings whose blank-line-separated,
trimmed concatenation has length strictly below the threshold,
summarize_section returns the too-short skip and issues zero HTTP
requests. -/
theorem claim2_too_short_skips_api (cfg : Config) (oracle : Nat → ApiResponse)
    (section_name : String) (paragraphs : List String)
    (h : pyLen (prepare_section_text paragraphs) < cfg.min_section_length) :
    summarize_section cfg oracle section_name paragraphs
      = (SummaryOutcome.tooShort, 0) := by
  have hv : is_section_valid cfg (prepare_section_text paragraphs) = false := by
    unfold is_section_valid
    simp only [decide_eq_false_iff_not, ge_iff_le, not_le]
    exact Nat.lt_of_le_of_lt (pyLen_pyStrip_le _) h
  unfold summarize_section
  simp [hv]

theorem claim2_witness :
    pyLen (prepare_section_text ["Too short."]) < default_config.min_section_length ∧
      summarize_section default_config (fun _ => ApiResponse.timeout) "Intro" ["Too short."]
        = (SummaryOutcome.tooShort, 0) :=
  ⟨by decide, claim2_too_short_skips_api _ _ _ _ (by decide)⟩

lemma call_loop_all_500 (cfg : Config) (oracle : Nat → ApiResponse)
    (body : Nat → Option String) (h : ∀ n, oracle n = ApiResponse.http 500 (body n)) :
    ∀ fuel attempt,
      (call_groq_api_loop cfg oracle attempt fuel).result = CallResult.failure ∧
        (call_groq_api_loop cfg oracle attempt fuel).calls = fuel := by
  intro fuel
  induction fuel with
  | zero => intro attempt; simp [call_groq_api_loop]
  | succ n ih =>
    intro attempt
    have := ih (attempt + 1)
    simp only [call_groq_api_loop, h attempt]
    norm_num
    exact this

/-- C3: when every response of the remote service is HTTP 500,
call_groq_api issues exactly max_retries HTTP requests and then returns
the failure outcome (the None of line 113). -/
theorem claim3_http500_exhausts_retries (cfg : Config)
    (oracle : Nat → ApiResponse) (body : Nat → Option String)
    (h : ∀ n, oracle n = ApiResponse.http 500 (body n)) :
    (call_groq_api cfg oracle).result = CallResult.failure ∧
      (call_groq_api cfg oracle).calls = cfg.max_retries :=
  call_loop_all_500 cfg oracle body h cfg.max_retries 0

theorem claim3_witness :
    (call_groq_api default_config (fun _ => ApiResponse.http 500 none)).result
        = CallResult.failure ∧
      (call_groq_api default_config (fun _ => ApiResponse.http 500 none)).calls
        = default_config.max_retries :=
  claim3_http500_exhausts_retries default_config _ (fun _ => none) (fun _ => rfl)

/-- C4: when the service replies 429 to the first two calls and 200 with
a parseable body to the third, call_groq_api issues exactly 3 HTTP
requests, returns the trimmed content of the first choice, and sleeps
base_delay * 2 ^ 0 between attempts 1 and 2 and base_delay * 2 ^ 1
between attempts 2 and 3. -/
theorem claim4_backoff_then_success (cfg : Config) (oracle : Nat → ApiResponse)
    (b0 b1 : Option String) (s : String)
    (hmr : cfg.max_retries = 3)
    (h0 : oracle 0 = ApiResponse.http 429 b0)
    (h1 : oracle 1 = ApiResponse.http 429 b1)
    (h2 : oracle 2 = ApiResponse.http 200 (some s)) :
    call_groq_api cfg oracle
      = ⟨CallResult.ok (pyStrip s), 3,
          [cfg.base_delay * 2 ^ 0, cfg.base_delay * 2 ^ 1]⟩ := by
  unfold call_groq_api
  rw [hmr]
  simp [call_groq_api_loop, h0, h1, h2]

theorem claim4_witness :
    call_groq_api default_config
        (fun n => if n = 0 then ApiResponse.http 429 none
          else if n = 1 then ApiResponse.http 429 none
          else ApiResponse.http 200 (some " A clean summary. "))
      = ⟨CallResult.ok (pyStrip " A clean summary. "), 3,
          [default_config.base_delay * 2 ^ 0, default_config.base_delay * 2 ^ 1]⟩ :=
  claim4_backoff_then_success default_config _ none none _ rfl rfl rfl rfl

/-- A paragraph comfortably above the 50-character validity threshold,
used as a concrete input below. -/
def longParagraph : String :=
  "This paragraph easily has more than fifty characters of meaningful content in it."

/-- C1 (amended): a section failure the code actually catches (the
too-short skip or the None after exhausted retries) only omits that
section: the batch visits it, drops it from the mapping, and the
remaining sections and returned mapping are exactly those of the rest
of the input. -/
theorem claim1_section_failure_contained (cfg : Config)
    (oracle : String → Nat → ApiResponse) (name : String)
    (paragraphs : List String) (rest : List (String × List String))
    (h : (summarize_section cfg (oracle name) name paragraphs).1 = SummaryOutcome.tooShort
      ∨ (summarize_section cfg (oracle name) name paragraphs).1 = SummaryOutcome.apiFailure) :
    (process_all_sections cfg oracle ((name, paragraphs) :: rest)).visited
        = name :: (process_all_sections cfg oracle rest).visited ∧
      (process_all_sections cfg oracle ((name, paragraphs) :: rest)).result
        = (process_all_sections cfg oracle rest).result := by
  rcases h with h | h <;> simp [process_all_sections, h]

/-- C1 witness oracle: every call succeeds. -/
def claim1w_oracle : String → Nat → ApiResponse :=
  fun _ _ => ApiResponse.http 200 (some "A fine summary.")

theorem claim1_witness :
    ((summarize_section default_config (claim1w_oracle "Skipped") "Skipped" ["tiny"]).1
          = SummaryOutcome.tooShort
      ∨ (summarize_section default_config (claim1w_oracle "Skipped") "Skipped" ["tiny"]).1
            = SummaryOutcome.apiFailure) ∧
      ((process_all_sections default_config claim1w_oracle
          (("Skipped", ["tiny"]) :: [("After", [longParagraph])])).visited
        = "Skipped" :: (process_all_sections default_config claim1w_oracle
            [("After", [longParagraph])]).visited ∧
      (process_all_sections default_config claim1w_oracle
          (("Skipped", ["tiny"]) :: [("After", [longParagraph])])).result
        = (process_all_sections default_config claim1w_oracle
            [("After", [longParagraph])]).result) :=
  ⟨Or.inl (by decide),
    claim1_section_failure_contained default_config claim1w_oracle "Skipped" ["tiny"] _
      (Or.inl (by decide))⟩

/-- C1 counterexample input: the first section receives an HTTP 200
whose body lacks the choices path; the second would succeed. -/
def claim1ce_data : List (String × List String) :=
  [("First", [longParagraph]), ("Second", [longParagraph])]

/-- C1 counterexample oracle. -/
def claim1ce_oracle : String → Nat → ApiResponse := fun name _ =>
  if name = "First" then ApiResponse.http 200 none
  else ApiResponse.http 200 (some "A summary.")

/-- C1 counterexample: the claim says any failure while summarizing one
section, including a failure to parse a successful HTTP 200 body into
choices[0].message.content, only omits that section and all remaining
sections are still visited.  On this input the parse failure of section
First raises an uncaught KeyError: the loop aborts (result none, no
mapping returned), and section Second is never visited. -/
theorem claim1_counterexample :
    (process_all_sections default_config claim1ce_oracle claim1ce_data).visited
        = ["First"] ∧
      ("Second" ∉ (process_all_sections default_config claim1ce_oracle claim1ce_data).visited) ∧
      (process_all_sections default_config claim1ce_oracle claim1ce_data).result = none := by
  decide

/-- The (key, summary) pair a section contributes to the returned
mapping: its key with the summary when summarize_section succeeded,
nothing otherwise. -/
def successOf (cfg : Config) (oracle : String → Nat → ApiResponse)
    (p : String × List String) : Option (String × String) :=
  match (summarize_section cfg (oracle p.1) p.1 p.2).1 with
  | .ok s => some (p.1, s)
  | _ => none

/-- C5 (amended): for every input mapping in which no section raises
(no HTTP 200 reply with an unparseable body), the orchestrator visits
each section exactly once in insertion order, and the returned mapping
is exactly the subsequence of the input order consisting of the
sections whose summarization succeeded. -/
theorem claim5_order_preserved (cfg : Config)
    (oracle : String → Nat → ApiResponse) (data : List (String × List String))
    (h : ∀ p ∈ data,
      (summarize_section cfg (oracle p.1) p.1 p.2).1 ≠ SummaryOutcome.raised) :
    (process_all_sections cfg oracle data).visited = data.map Prod.fst ∧
      (process_all_sections cfg oracle data).result
        = some (data.filterMap (successOf cfg oracle)) := by
  induction data with
  | nil => simp [process_all_sections]
  | cons p rest ih =>
    obtain ⟨name, paragraphs⟩ := p
    have hhead := h (name, paragraphs) (List.mem_cons_self _ _)
    obtain ⟨ih1, ih2⟩ := ih (fun q hq => h q (List.mem_cons_of_mem _ hq))
    cases hout : (summarize_section cfg (oracle name) name paragraphs).1 with
    | raised => exact absurd hout hhead
    | ok s =>
      simp [process_all_sections, hout, successOf, List.filterMap_cons, ih1, ih2]
    | tooShort =>
      simp [process_all_sections, hout, successOf, List.filterMap_cons, ih1, ih2]
    | apiFailure =>
      simp [process_all_sections, hout, successOf, List.filterMap_cons, ih1, ih2]

/-- C5 witness input: the middle section is below the validity
threshold, so it fails and is omitted while order is preserved. -/
def claim5w_data : List (String × List String) :=
  [("S1", [longParagraph]), ("S2", ["no"]), ("S3", [longParagraph])]

/-- C5 witness oracle: every call succeeds. -/
def claim5w_oracle : String → Nat → ApiResponse :=
  fun _ _ => ApiResponse.http 200 (some "Good summary.")

theorem claim5_witness :
    (∀ p ∈ claim5w_data,
        (summarize_section default_config (claim5w_oracle p.1) p.1 p.2).1
          ≠ SummaryOutcome.raised) ∧
      ((process_all_sections default_config claim5w_oracle claim5w_data).visited
          = claim5w_data.map Prod.fst ∧
        (process_all_sections default_config claim5w_oracle claim5w_data).result
          = some (claim5w_data.filterMap (successOf default_config claim5w_oracle))) :=
  ⟨by decide, claim5_order_preserved default_config claim5w_oracle claim5w_data (by decide)⟩

/-- C5 counterexample input: Beta receives an HTTP 200 whose body lacks
the choices path; Alpha and Gamma would succeed. -/
def claim5ce_data : List (String × List String) :=
  [("Alpha", [longParagraph]), ("Beta", [longParagraph]), ("Gamma", [longParagraph])]

/-- C5 counterexample oracle. -/
def claim5ce_oracle : String → Nat → ApiResponse := fun name _ =>
  if name = "Beta" then ApiResponse.http 200 none
  else ApiResponse.http 200 (some "Good summary.")

/-- C5 counterexample: the claim says every section is visited exactly
once and the output key order is the success subsequence (here it would
be [Alpha, Gamma]).  On this input the KeyError raised for Beta aborts
the loop: Gamma is never visited and no mapping is returned at all. -/
theorem claim5_counterexample :
    (process_all_sections default_config claim5ce_oracle claim5ce_data).visited
        = ["Alpha", "Beta"] ∧
      ("Gamma" ∉ (process_all_sections default_config claim5ce_oracle claim5ce_data).visited) ∧
      (process_all_sections default_config claim5ce_oracle claim5ce_data).result = none := by
  decide

/-- C7 (amended): when the batch returns normally with zero successful
sections (also when the input mapping is empty), the loop returns the
empty mapping, save_markdown is never reached (no output file), the
summarizer exit code is 1 and the pipeline step reports False; nothing
raises past the batch boundary. -/
theorem claim7_zero_success_no_output (cfg : Config)
    (oracle : String → Nat → ApiResponse) (data : List (String × List String))
    (h : (process_all_sections cfg oracle data).result = some []) :
    writes_output cfg oracle data = false ∧
      main_exit cfg oracle data = 1 ∧
      step_3_success cfg oracle data = false := by
  unfold writes_output main_exit step_3_success
  simp [h]

theorem claim7_witness :
    (process_all_sections default_config (fun _ _ => ApiResponse.timeout)
        [("Tiny", ["x"])]).result = some [] ∧
      (writes_output default_config (fun _ _ => ApiResponse.timeout)
          [("Tiny", ["x"])] = false ∧
        main_exit default_config (fun _ _ => ApiResponse.timeout)
          [("Tiny", ["x"])] = 1 ∧
        step_3_success default_config (fun _ _ => ApiResponse.timeout)
          [("Tiny", ["x"])] = false) :=
  ⟨by decide,
    claim7_zero_success_no_output default_config (fun _ _ => ApiResponse.timeout)
      [("Tiny", ["x"])] (by decide)⟩

/-- C7 counterexample input: one valid section whose HTTP 200 reply has
a body without the choices path. -/
def claim7ce_data : List (String × List String) := [("Solo", [longParagraph])]

/-- C7 counterexample oracle. -/
def claim7ce_oracle : String → Nat → ApiResponse :=
  fun _ _ => ApiResponse.http 200 none

/-- C7 counterexample: zero sections are successfully summarized on this
input, yet the claim fails: the orchestrator does not return an empty
mapping and the failure does raise past the batch boundary (the KeyError
of the unparseable 200 body propagates out of process_all_sections, so
its result is none rather than some []). -/
theorem claim7_counterexample :
    (process_all_sections default_config claim7ce_oracle claim7ce_data).result = none ∧
      (process_all_sections default_config claim7ce_oracle claim7ce_data).result ≠ some [] ∧
      writes_output default_config claim7ce_oracle claim7ce_data = false ∧
      main_exit default_config claim7ce_oracle claim7ce_data = 1 := by
  decide

/-- C9: the output formatter is a pure function of the summary mapping:
two applications to the same mapping give byte-identical Markdown. -/
theorem claim9_formatter_deterministic (m1 m2 : List (String × String))
    (h : m1 = m2) :
    format_markdown_output m1 = format_markdown_output m2 := by
  rw [h]

theorem claim9_witness :
    ("History", "He conquered much of the known world.")
        :: [("History > Early Life", "He was born in Pella.")]
      = [("History", "He conquered much of the known world."),
         ("History > Early Life", "He was born in Pella.")] ∧
      format_markdown_output
          (("History", "He conquered much of the known world.")
            :: [("History > Early Life", "He was born in Pella.")])
        = format_markdown_output
            [("History", "He conquered much of the known world."),
             ("History > Early Life", "He was born in Pella.")] :=
  ⟨rfl, claim9_formatter_deterministic _ _ rfl⟩

lemma formatLines_append (l1 l2 : List (String × String)) :
    formatLines (l1 ++ l2) = formatLines l1 ++ formatLines l2 := by
  induction l1 with
  | nil => rfl
  | cons p rest ih =>
    obtain ⟨n, s⟩ := p
    simp [formatLines, ih]

/-- C10: the formatter decides the heading level of a key solely by
whether the character > occurs anywhere in it: wherever an entry sits in
the mapping, its heading line is level 3 exactly when its key contains
the character >, and level 2 otherwise, independently of the full
path separator. -/
theorem claim10_heading_by_gt_char (pre post : List (String × String))
    (name s : String) :
    formatLines (pre ++ (name, s) :: post)
      = formatLines pre
        ++ (if name.data.contains '>' then "### " ++ name ++ "\n"
            else "## " ++ name ++ "\n")
          :: (s ++ "\n") :: formatLines post := by
  rw [formatLines_append]
  simp [formatLines, headingLine]

lemma isWS_nl : isWS '\n' = true := rfl

lemma data_nl : ("\n" : String).data = ['\n'] := rfl

lemma data_nl2 : ("\n\n" : String).data = ['\n', '\n'] := rfl

lemma pyStrip_append_nl (s : String) : pyStrip (s ++ "\n") = pyStrip s := by
  apply String.ext
  show stripChars (s ++ "\n").data = stripChars s.data
  rw [String.data_append, data_nl]
  unfold stripChars
  rw [List.reverse_append]
  simp [List.dropWhile_cons, isWS_nl]

/-- The Markdown block one section contributes, stated the way the
specification describes the output artifact (amended to the actual
heading rule): a heading whose level is 3 when the key contains the
character > and 2 otherwise, a blank line, and the summary text. -/
def specSectionBlock (p : String × String) : String :=
  (if p.1.data.contains '>' then "### " ++ p.1 else "## " ++ p.1) ++ "\n\n" ++ p.2

lemma pyJoin_formatLines :
    ∀ (rest : List (String × String)) (x : String × String),
      pyJoin "\n" (formatLines (x :: rest))
        = pyJoin "\n\n" ((x :: rest).map specSectionBlock) ++ "\n" := by
  intro rest
  induction rest with
  | nil =>
    intro x
    obtain ⟨n, s⟩ := x
    show pyJoin "\n" [headingLine n, s ++ "\n"] = specSectionBlock (n, s) ++ "\n"
    apply String.ext
    unfold pyJoin headingLine specSectionBlock
    by_cases hc : '>' ∈ n.data <;>
      simp [hc, pyJoin, String.data_append, data_nl, data_nl2]
  | cons head tail ih =>
    intro x
    obtain ⟨n, s⟩ := x
    obtain ⟨hn, hs⟩ := head
    show pyJoin "\n"
        (headingLine n :: (s ++ "\n") :: formatLines ((hn, hs) :: tail))
      = pyJoin "\n\n"
          (specSectionBlock (n, s) :: ((hn, hs) :: tail).map specSectionBlock)
        ++ "\n"
    have hfl : formatLines ((hn, hs) :: tail)
        = headingLine hn :: (hs ++ "\n") :: formatLines tail := rfl
    rw [hfl]
    have hjoin : pyJoin "\n"
        (headingLine n :: (s ++ "\n")
          :: headingLine hn :: (hs ++ "\n") :: formatLines tail)
      = headingLine n ++ "\n" ++ ((s ++ "\n") ++ "\n"
          ++ pyJoin "\n" (headingLine hn :: (hs ++ "\n") :: formatLines tail)) := by
      simp [pyJoin, String.append_assoc]
    rw [hjoin, ← hfl, ih (hn, hs)]
    have hmap : ((hn, hs) :: tail).map specSectionBlock
        = specSectionBlock (hn, hs) :: tail.map specSectionBlock := rfl
    rw [hmap]
    have hjoin2 : pyJoin "\n\n"
        (specSectionBlock (n, s) :: specSectionBlock (hn, hs)
          :: tail.map specSectionBlock)
      = specSectionBlock (n, s) ++ "\n\n"
          ++ pyJoin "\n\n" (specSectionBlock (hn, hs) :: tail.map specSectionBlock) := by
      simp [pyJoin, String.append_assoc]
    rw [hjoin2]
    apply String.ext
    unfold headingLine specSectionBlock
    by_cases hc : '>' ∈ n.data <;>
      simp [hc, String.data_append, data_nl, data_nl2]

/-- C6 (amended): the rendered Markdown is exactly the blocks of the
successfully summarized sections, in the mapping's order, each block a
heading line (level 3 when the key contains the character >, level 2
otherwise), a blank line and the summary text, blocks separated by
blank lines, with surrounding whitespace stripped. -/
theorem claim6_markdown_layout (summaries : List (String × String)) :
    format_markdown_output summaries
      = pyStrip (pyJoin "\n\n" (summaries.map specSectionBlock)) := by
  cases summaries with
  | nil => rfl
  | cons x rest =>
    unfold format_markdown_output
    rw [pyJoin_formatLines rest x, pyStrip_append_nl]

/-- C6 counterexample: the claim renders a top-level key (one not
containing the path separator, the string space-greater-space) as a
level-2 heading.  The key A>B contains no such separator, so under the
claim it is a top-level key, yet the code renders it as a level-3
heading, because the test of summarizer.py line 145 only looks for the
character >. -/
theorem claim6_counterexample :
    containsSub "A>B".data " > ".data = false ∧
      "A>B".data.contains '>' = true ∧
      format_markdown_output [("A>B", "Body.")] = "### A>B\n\nBody." := by
  decide

/-- C8 (amended): with the API key variable absent, the summarizer entry
point runs the credential check first, reports the fatal configuration
error with the descriptive message, and performs no network activity at
all; and in neither entry point is a remote completion call ever made
when the key is absent.  (The pipeline entry point, however, fetches the
article page over the network before the credential check; see the
counterexample.) -/
theorem claim8_config_error_before_api_calls (cfg : Config)
    (oracle : String → Nat → ApiResponse) (data : List (String × List String))
    (scraped : Option (List (String × List String))) :
    summarizer_main_trace cfg none oracle data
        = [Event.credCheck, Event.configError] ∧
      (summarizer_main_trace cfg none oracle data).any isRemote = false ∧
      (run_pipeline_trace cfg none scraped oracle).count Event.groqCall = 0 := by
  refine ⟨rfl, rfl, ?_⟩
  cases scraped with
  | none => rfl
  | some d => rfl

/-- C8 counterexample scrape result: the article page was fetched and
yielded one section. -/
def claim8ce_scraped : Option (List (String × List String)) :=
  some [("History", [longParagraph])]

/-- C8 counterexample oracle (never reached, since the key is absent). -/
def claim8ce_oracle : String → Nat → ApiResponse :=
  fun _ _ => ApiResponse.http 500 none

/-- C8 counterexample: the claim says no remote call of any kind is made
before the credential check.  In run_pipeline, step 1 fetches the
article page over the network (scraper.fetch_page, a requests.get)
before step 2 performs the credential check, so with the key absent the
trace contains a remote event strictly before the credCheck event. -/
theorem claim8_counterexample :
    ((run_pipeline_trace default_config none claim8ce_scraped claim8ce_oracle).takeWhile
        (fun e => !(e == Event.credCheck))).any isRemote = true ∧
      run_pipeline_trace default_config none claim8ce_scraped claim8ce_oracle
        = [Event.wikiFetch, Event.credCheck, Event.configError] := by
  decide
